import Mathlib

/-!
Shallow embedding of the titerra batch-criteria expansion engine
(`src/titerra/projects/common/variables/oracle.py`) and the steady-state
performance-measure kernel (`src/titerra/projects/common/perf_measures/raw.py`).

Python strings are Lean `String`s; Python `None` becomes `Option`; code that can
raise becomes `Except String`; the mutable `Oracle` object becomes explicit
state passing over `OracleState`.
-/

/-- One edit to a hierarchical configuration document: sierra's
`xml.AttrChange(path, attr, value)` triple. -/
structure AttrChange where
  path : String
  attr : String
  value : String
deriving DecidableEq, Repr

/-- Modelled from the spec: sierra's `xml.AttrChangeSet` (external package, not
under src/) is a set of AttrChange values with uniqueness by full triple.  We
represent it as a duplicate-free list; `add` inserts if absent, `union` is the
in-place set union used by the `|=` operator. -/
abbrev AttrChangeSet := List AttrChange

/-- sierra's `AttrChangeSet.add`: insert an AttrChange if not already present. -/
def AttrChangeSet.add (s : AttrChangeSet) (c : AttrChange) : AttrChangeSet :=
  if c ∈ s then s else s ++ [c]

/-- sierra's `AttrChangeSet.__ior__` (`|=`): add every element of `t` to `s`. -/
def AttrChangeSet.union (s t : AttrChangeSet) : AttrChangeSet :=
  t.foldl AttrChangeSet.add s

/-- Modelled from the spec: the external population-size provider (sierra's
`PopulationSize`, not under src/) produces "exactly one edit setting swarm
population, independent of category" (spec section 6). -/
def popChange (n : Nat) : AttrChange :=
  { path := ".//arena/distribute/entity", attr := "quantity", value := toString n }

/-- Modelled from the spec: `PopulationSize(...).gen_attr_changelist()[0]`, the
single AttrChangeSet representing "set population to N". -/
def populationSizeChgs (n : Nat) : AttrChangeSet := [popChange n]

/-- `Oracle.kInfoTypes['entities']`: the declared boolean feature flags of the
`entities` category. -/
def Oracle.kInfoTypesEntities : List String := ["caches", "blocks"]

/-- The mutable fields of an `Oracle` instance that `gen_attr_changelist`
reads and writes: `self.tuples`, `self.population`, `self.attr_changes`. -/
structure OracleState where
  tuples : Option (List (String × List (String × String)))
  population : Option Nat
  attr_changes : List AttrChangeSet
deriving DecidableEq, Repr

/-- The inner loop of `Oracle.gen_attr_changelist` (oracle.py lines 66-72):
`s = AttrChangeSet(); for t in features: s.add(AttrChange(".//oracle_manager/"
+ oracle, t[0], t[1]))`. -/
def Oracle.buildChangeSet (oracle : String) (features : List (String × String)) :
    AttrChangeSet :=
  features.foldl
    (fun s t =>
      AttrChangeSet.add s
        { path := ".//oracle_manager/" ++ oracle, attr := t.1, value := t.2 })
    []

/-- `Oracle.gen_attr_changelist` (oracle.py lines 60-82).  The guard
`if not self.attr_changes` recomputes only when the cache is empty; iterating a
`None` tuples field raises `TypeError`; when `self.population is not None` the
population AttrChangeSet is unioned (`|=`) into every entry. -/
def Oracle.gen_attr_changelist (st : OracleState) :
    Except String (List AttrChangeSet × OracleState) :=
  if st.attr_changes.isEmpty then
    match st.tuples with
    | none => Except.error "TypeError: NoneType object is not iterable"
    | some tups =>
      let base := tups.map (fun p => Oracle.buildChangeSet p.1 p.2)
      let plan :=
        match st.population with
        | none => base
        | some n => base.map (fun s => AttrChangeSet.union s (populationSizeChgs n))
      Except.ok (plan, { st with attr_changes := plan })
  else
    Except.ok (st.attr_changes, st)

/-- `Oracle.gen_exp_names` (oracle.py lines 84-86):
`['exp' + str(x) for x in range(0, len(self.gen_attr_changelist()))]`. -/
def Oracle.gen_exp_names (st : OracleState) :
    Except String (List String × OracleState) :=
  match Oracle.gen_attr_changelist st with
  | Except.error e => Except.error e
  | Except.ok (changes, st2) =>
    Except.ok ((List.range changes.length).map (fun x => "exp" ++ toString x), st2)

/-- `Oracle.graph_xticklabels` (oracle.py lines 96-99): unconditionally
`raise NotImplementedError`. -/
def Oracle.graph_xticklabels (_exp_names : Option (List String)) :
    Except String (List String) :=
  Except.error "NotImplementedError"

/-- Python substring check at one position: the pattern matches at the head of
the haystack. -/
def subAt : List Char → List Char → Bool
  | [], _ => true
  | _ :: _, [] => false
  | a :: as, b :: bs => (a == b) && subAt as bs

/-- Python substring containment scanning every start position left to right. -/
def hasSub (pat : List Char) : List Char → Bool
  | [] => subAt pat []
  | b :: bs => subAt pat (b :: bs) || hasSub pat bs

/-- Python's `pat in s` substring test on strings. -/
def strContains (s pat : String) : Bool := hasSub pat.toList s.toList

/-- One attempt of `re.search(r"\.Z[0-9]+", s)` at the current position:
a literal `.`, a literal `Z`, then a maximal non-empty run of digits. -/
def matchZ : List Char → Option (List Char)
  | '.' :: 'Z' :: rest =>
    match rest.takeWhile Char.isDigit with
    | [] => none
    | ds => some ds
  | _ => none

/-- `re.search(r"\.Z[0-9]+", s)`: try each start position left to right and
return the digits of the first (leftmost) match. -/
def searchZ : List Char → Option (List Char)
  | [] => none
  | c :: rest =>
    match matchZ (c :: rest) with
    | some ds => some ds
    | none => searchZ rest

/-- Python `int` applied to a non-empty digit string. -/
def digitsToNat (ds : List Char) : Nat :=
  ds.foldl (fun a c => a * 10 + (c.toNat - '0'.toNat)) 0

/-- `int(res.group(0)[2:])` applied to the leftmost `.Z<digits>` match, or
`None` when the pattern does not occur. -/
def parsePopulation (s : String) : Option Nat :=
  (searchZ s.toList).map digitsToNat

/-- The dictionary returned by `Parser.__call__` (oracle.py lines 117-144). -/
structure CriteriaIntent where
  oracle_name : String
  oracle_type : String
  population : Option Nat
deriving DecidableEq, Repr

/-- `Parser.__call__` (oracle.py lines 117-144): substring test for
`'entities'`, then `elif` substring test for `'tasking'`, then the independent
population scan. -/
def Parser.call (criteria_str : String) : CriteriaIntent :=
  if strContains criteria_str "entities" then
    { oracle_name := "entities_oracle", oracle_type := "entities"
      population := parsePopulation criteria_str }
  else if strContains criteria_str "tasking" then
    { oracle_name := "tasking_oracle", oracle_type := "tasking"
      population := parsePopulation criteria_str }
  else
    { oracle_name := "", oracle_type := ""
      population := parsePopulation criteria_str }

/-- `str(b).lower()` for a Python bool. -/
def pyBoolStr (b : Bool) : String := if b then "true" else "false"

/-- `itertools.product([False, True], repeat=k)` in its enumeration order:
lexicographic over the tuple with the first coordinate varying slowest and
`False` before `True`. -/
def productFT : Nat → List (List Bool)
  | 0 => [[]]
  | n + 1 =>
    ((productFT n).map (fun v => false :: v)) ++ ((productFT n).map (fun v => true :: v))

/-- `factory.gen_tuples` (oracle.py lines 157-169): for a name containing
`'entities'`, one tuple `(oracle_name, [(flag_i, str(val_i).lower()), ...])`
per element of the Cartesian product; otherwise the fall-through `return None`. -/
def factory.gen_tuples (oracle_name : String) :
    Option (List (String × List (String × String))) :=
  if strContains oracle_name "entities" then
    some ((productFT Oracle.kInfoTypesEntities.length).map (fun val =>
      (oracle_name,
        (List.range Oracle.kInfoTypesEntities.length).map (fun i =>
          (Oracle.kInfoTypesEntities.getD i "", pyBoolStr (val.getD i false))))))
  else
    none

/-- The `__init__` the factory installs (oracle.py lines 171-177): parse the
cli argument, then store `gen_tuples()` and the parsed population with an empty
`attr_changes` cache. -/
def factoryInit (cli_arg : String) : OracleState :=
  let attr := Parser.call cli_arg
  { tuples := factory.gen_tuples attr.oracle_name
    population := attr.population
    attr_changes := [] }

/-- The plan entries the factory-produced entities criteria generates before
the population merge: `gen_tuples` output fed through the inner loop of
`gen_attr_changelist` (the `None` case, impossible for the entities name,
collapses to `[]`). -/
def entitiesBasePlan : List AttrChangeSet :=
  ((factory.gen_tuples "entities_oracle").getD []).map
    (fun p => Oracle.buildChangeSet p.1 p.2)

/-- A pandas data frame, row-oriented: column names in order, then the rows,
each row listing one value per column.  Values are integers, which is all the
collated performance counts need. -/
structure DataFrame where
  cols : List String
  rows : List (List Int)
deriving DecidableEq, Repr

/-- The message of the `IndexError` pandas raises for `df.index[-1]` on an
empty index. -/
def indexErrMsg : String := "IndexError: index -1 is out of bounds for axis 0 with size 0"

/-- The body of the loop of `BaseSteadyStateRaw.df_kernel` (raw.py lines
35-40) for a single experiment: build a one-row frame with the input's columns
and assign each column the value at `collated[exp].index[-1]`.  With no
columns the assignment loop never runs and the freshly built one-row,
zero-column frame is returned; with at least one column and an empty index,
`index[-1]` raises `IndexError`. -/
def df_kernel_one (df : DataFrame) : Except String DataFrame :=
  if df.cols.isEmpty then
    Except.ok { cols := df.cols, rows := [[]] }
  else
    match df.rows.getLast? with
    | none => Except.error indexErrMsg
    | some last => Except.ok { cols := df.cols, rows := [last] }

/-- `BaseSteadyStateRaw.df_kernel` (raw.py lines 31-42): reduce every
experiment's collated frame, in mapping order, to its steady-state row; a
raised exception aborts the whole loop. -/
def BaseSteadyStateRaw.df_kernel :
    List (String × DataFrame) → Except String (List (String × DataFrame))
  | [] => Except.ok []
  | (exp, df) :: rest =>
    match df_kernel_one df with
    | Except.error e => Except.error e
    | Except.ok out =>
      match BaseSteadyStateRaw.df_kernel rest with
      | Except.error e => Except.error e
      | Except.ok outs => Except.ok ((exp, out) :: outs)

/-- Equality of `Except` results is decidable when both components are. -/
instance (ε α : Type) [DecidableEq ε] [DecidableEq α] : DecidableEq (Except ε α) :=
  fun a b =>
    match a, b with
    | Except.error e1, Except.error e2 => decidable_of_iff (e1 = e2) (by simp)
    | Except.ok v1, Except.ok v2 => decidable_of_iff (v1 = v2) (by simp)
    | Except.error _, Except.ok _ => isFalse (by simp)
    | Except.ok _, Except.error _ => isFalse (by simp)

/-- Adding an AttrChange makes it a member, whether or not it was present. -/
theorem AttrChangeSet.mem_add (s : AttrChangeSet) (c : AttrChange) :
    c ∈ AttrChangeSet.add s c := by
  unfold AttrChangeSet.add
  by_cases h : c ∈ s
  · simp [h]
  · simp [h]

/-- Adding an absent AttrChange grows the set by exactly one element. -/
theorem AttrChangeSet.length_add_of_not_mem (s : AttrChangeSet) (c : AttrChange)
    (h : c ∉ s) : (AttrChangeSet.add s c).length = s.length + 1 := by
  simp [AttrChangeSet.add, h]

/-- C1: for the entities category with its k = 2 declared flags, the base
expansion plan (before any population merge) is the full Cartesian product of
booleans over the flags: 2 ^ k = 4 entries, pairwise distinct, enumerated
lexicographically with False before True, each entry holding one AttrChange
per flag at path `.//oracle_manager/entities_oracle` with the lower-case
boolean string as value; and `gen_attr_changelist` with no population returns
exactly this plan. -/
theorem entities_base_plan_full_product :
    entitiesBasePlan.length = 2 ^ Oracle.kInfoTypesEntities.length ∧
    entitiesBasePlan.Nodup ∧
    (factory.gen_tuples "entities_oracle").isSome = true ∧
    entitiesBasePlan =
      [[AttrChange.mk ".//oracle_manager/entities_oracle" "caches" "false",
        AttrChange.mk ".//oracle_manager/entities_oracle" "blocks" "false"],
       [AttrChange.mk ".//oracle_manager/entities_oracle" "caches" "false",
        AttrChange.mk ".//oracle_manager/entities_oracle" "blocks" "true"],
       [AttrChange.mk ".//oracle_manager/entities_oracle" "caches" "true",
        AttrChange.mk ".//oracle_manager/entities_oracle" "blocks" "false"],
       [AttrChange.mk ".//oracle_manager/entities_oracle" "caches" "true",
        AttrChange.mk ".//oracle_manager/entities_oracle" "blocks" "true"]] ∧
    Oracle.gen_attr_changelist
        { tuples := factory.gen_tuples "entities_oracle", population := none
          attr_changes := [] } =
      Except.ok (entitiesBasePlan,
        { tuples := factory.gen_tuples "entities_oracle", population := none
          attr_changes := entitiesBasePlan }) := by
  decide

/-- C8: `graph_xticklabels` fails loudly with NotImplementedError on every
input; it never returns a value. -/
theorem graph_xticklabels_always_fails (exp_names : Option (List String)) :
    Oracle.graph_xticklabels exp_names = Except.error "NotImplementedError" := rfl

/-- C3: the criteria string "oracle.entities.Z64" parses to category entities,
name entities_oracle, population 64; the resulting plan has exactly 4 entries
of exactly 3 AttrChange values each; and the experiment names are exactly
exp0..exp3. -/
theorem oracle_entities_Z64_scenario :
    Parser.call "oracle.entities.Z64" =
      { oracle_name := "entities_oracle", oracle_type := "entities"
        population := some 64 } ∧
    (∃ plan st2,
      Oracle.gen_attr_changelist (factoryInit "oracle.entities.Z64") =
        Except.ok (plan, st2) ∧
      plan.length = 4 ∧ (∀ s ∈ plan, s.length = 3)) ∧
    (∃ st3, Oracle.gen_exp_names (factoryInit "oracle.entities.Z64") =
      Except.ok (["exp0", "exp1", "exp2", "exp3"], st3)) := by
  refine ⟨by decide, ⟨_, _, rfl, ?_, ?_⟩, ⟨_, rfl⟩⟩
  · decide
  · decide

/-- C2 counterexample: "oracle.foo" parses to an empty (unsupported) category,
and the factory-built criteria does not yield a single-empty-set plan:
`gen_attr_changelist` raises a TypeError (iterating the None tuples), so the
degenerate plan is not propagated as a normal result. -/
theorem unsupported_category_raises_cex :
    (Parser.call "oracle.foo").oracle_type = "" ∧
    (Parser.call "oracle.foo").oracle_name = "" ∧
    Oracle.gen_attr_changelist (factoryInit "oracle.foo") =
      Except.error "TypeError: NoneType object is not iterable" := by
  decide

/-- C2 amended: for every criteria string whose parsed intent has an empty
(unsupported) category, `factory.gen_tuples` falls through to None and
`gen_attr_changelist` raises a TypeError when iterating it, rather than
producing a plan (in particular, not the single no-op experiment). -/
theorem unsupported_category_plan_errors (s : String)
    (h : (Parser.call s).oracle_type = "") :
    factory.gen_tuples (Parser.call s).oracle_name = none ∧
    Oracle.gen_attr_changelist (factoryInit s) =
      Except.error "TypeError: NoneType object is not iterable" := by
  by_cases h1 : strContains s "entities"
  · rw [Parser.call, if_pos h1] at h
    exact absurd (show ("entities" : String) = "" from h) (by decide)
  · by_cases h2 : strContains s "tasking"
    · rw [Parser.call, if_neg h1, if_pos h2] at h
      exact absurd (show ("tasking" : String) = "" from h) (by decide)
    · have hname : (Parser.call s).oracle_name = "" := by
        rw [Parser.call, if_neg h1, if_neg h2]
      have hg : factory.gen_tuples (Parser.call s).oracle_name = none := by
        rw [hname]; decide
      refine ⟨hg, ?_⟩
      show Oracle.gen_attr_changelist
          { tuples := factory.gen_tuples (Parser.call s).oracle_name
            population := (Parser.call s).population, attr_changes := [] } = _
      rw [hg]
      rfl

/-- Witness for the amended C2 at the concrete string "oracle.foo". -/
theorem unsupported_category_plan_errors_witness :
    factory.gen_tuples (Parser.call "oracle.foo").oracle_name = none ∧
    Oracle.gen_attr_changelist (factoryInit "oracle.foo") =
      Except.error "TypeError: NoneType object is not iterable" :=
  unsupported_category_plan_errors "oracle.foo" (by decide)

/-- C4: when the parsed intent carries a population N, the single population
AttrChangeSet from the provider is unioned into every entry of the plan: the
returned plan is the pointwise union of the base plan with the population set,
every entry contains the identical population edit, and absent a
path/attribute collision a merged entry has exactly one more element than its
pre-merge form. -/
theorem population_merge_broadcast (tups : List (String × List (String × String)))
    (n : Nat) (s : AttrChangeSet)
    (_hs : s ∈ tups.map (fun p => Oracle.buildChangeSet p.1 p.2))
    (hno : ∀ c ∈ s, c.path ≠ (popChange n).path ∨ c.attr ≠ (popChange n).attr) :
    Oracle.gen_attr_changelist
        { tuples := some tups, population := some n, attr_changes := [] } =
      Except.ok
        ((tups.map (fun p => Oracle.buildChangeSet p.1 p.2)).map
            (fun b => AttrChangeSet.union b (populationSizeChgs n)),
          { tuples := some tups, population := some n
            attr_changes := (tups.map (fun p => Oracle.buildChangeSet p.1 p.2)).map
              (fun b => AttrChangeSet.union b (populationSizeChgs n)) }) ∧
    popChange n ∈ AttrChangeSet.union s (populationSizeChgs n) ∧
    (AttrChangeSet.union s (populationSizeChgs n)).length = s.length + 1 := by
  have hnot : popChange n ∉ s := by
    intro hmem
    rcases hno (popChange n) hmem with hp | hp <;> exact hp rfl
  have hunion : AttrChangeSet.union s (populationSizeChgs n) =
      AttrChangeSet.add s (popChange n) := rfl
  refine ⟨rfl, ?_, ?_⟩
  · rw [hunion]; exact AttrChangeSet.mem_add s (popChange n)
  · rw [hunion]; exact AttrChangeSet.length_add_of_not_mem s (popChange n) hnot

/-- Witness for C4 at the first entities tuple and population 64. -/
theorem population_merge_broadcast_witness :
    popChange 64 ∈ AttrChangeSet.union
        [AttrChange.mk ".//oracle_manager/entities_oracle" "caches" "false",
         AttrChange.mk ".//oracle_manager/entities_oracle" "blocks" "false"]
        (populationSizeChgs 64) ∧
    (AttrChangeSet.union
        [AttrChange.mk ".//oracle_manager/entities_oracle" "caches" "false",
         AttrChange.mk ".//oracle_manager/entities_oracle" "blocks" "false"]
        (populationSizeChgs 64)).length = 2 + 1 := by
  have h := population_merge_broadcast
      [("entities_oracle", [("caches", "false"), ("blocks", "false")])] 64
      [AttrChange.mk ".//oracle_manager/entities_oracle" "caches" "false",
       AttrChange.mk ".//oracle_manager/entities_oracle" "blocks" "false"]
      (by decide) (by decide)
  exact ⟨h.2.1, h.2.2⟩

/-- C7: `gen_attr_changelist` is idempotent through its cache: a successful
call returns a plan and a post state, and calling again on that post state
returns the identical plan and leaves the state unchanged — in particular the
population merge is not stacked on repeated calls. -/
theorem gen_attr_changelist_idempotent (st : OracleState)
    (plan : List AttrChangeSet) (st2 : OracleState)
    (h : Oracle.gen_attr_changelist st = Except.ok (plan, st2)) :
    Oracle.gen_attr_changelist st2 = Except.ok (plan, st2) := by
  obtain ⟨tuples, population, attr_changes⟩ := st
  by_cases he : attr_changes.isEmpty
  · cases tuples with
    | none => simp [Oracle.gen_attr_changelist, he] at h
    | some tups =>
      rw [Oracle.gen_attr_changelist] at h
      simp only [he, if_pos] at h
      rw [Except.ok.injEq, Prod.mk.injEq] at h
      obtain ⟨hplan, hst2⟩ := h
      subst hst2
      by_cases hp : plan.isEmpty
      · rw [Oracle.gen_attr_changelist]
        simp only [hplan, hp, if_pos]
      · rw [Oracle.gen_attr_changelist]
        simp only [hplan, hp]
        rw [if_neg (by simp [hp])]
  · rw [Oracle.gen_attr_changelist] at h
    simp only [if_neg he] at h
    rw [Except.ok.injEq, Prod.mk.injEq] at h
    obtain ⟨hplan, hst2⟩ := h
    subst hplan
    subst hst2
    rw [Oracle.gen_attr_changelist]
    simp only [if_neg he]

/-- Witness for C7 at a small concrete state whose first call succeeds. -/
theorem gen_attr_changelist_idempotent_witness :
    Oracle.gen_attr_changelist
        { tuples := some [("o", [("a", "b")])], population := none
          attr_changes := [[AttrChange.mk ".//oracle_manager/o" "a" "b"]] } =
      Except.ok ([[AttrChange.mk ".//oracle_manager/o" "a" "b"]],
        { tuples := some [("o", [("a", "b")])], population := none
          attr_changes := [[AttrChange.mk ".//oracle_manager/o" "a" "b"]] }) :=
  gen_attr_changelist_idempotent
    { tuples := some [("o", [("a", "b")])], population := none, attr_changes := [] }
    [[AttrChange.mk ".//oracle_manager/o" "a" "b"]]
    { tuples := some [("o", [("a", "b")])], population := none
      attr_changes := [[AttrChange.mk ".//oracle_manager/o" "a" "b"]] }
    (by decide)

/-- On a frame with at least one row whose rows all match the column count,
the kernel body returns the one-row frame holding the last row. -/
theorem df_kernel_one_ok (df : DataFrame) (hne : df.rows ≠ [])
    (hwf : ∀ r ∈ df.rows, r.length = df.cols.length) :
    df_kernel_one df = Except.ok { cols := df.cols, rows := [df.rows.getLastD []] } := by
  have hsome : df.rows.getLast? = some (df.rows.getLastD []) := by
    cases hr : df.rows.getLast? with
    | none => exact absurd (List.getLast?_eq_none_iff.mp hr) hne
    | some a => rw [List.getLastD_eq_getLast?, hr]; rfl
  by_cases hc : df.cols.isEmpty
  · have hmem : df.rows.getLastD [] ∈ df.rows :=
      List.mem_of_mem_getLast? hsome
    have hlen : (df.rows.getLastD []).length = df.cols.length := hwf _ hmem
    have hnil : df.rows.getLastD [] = [] := by
      rw [List.isEmpty_iff] at hc
      refine List.length_eq_zero.mp ?_
      rw [hlen, hc]
      rfl
    rw [df_kernel_one, if_pos hc, hnil]
  · rw [df_kernel_one, if_neg hc, hsome]

/-- C5: on a mapping from experiment names to non-empty well-formed frames,
the steady-state kernel succeeds and maps each experiment independently to the
one-row frame with the same columns (same names, same order) holding the last
row of its input frame. -/
theorem df_kernel_last_row (collated : List (String × DataFrame))
    (h : ∀ p ∈ collated, p.2.rows ≠ [] ∧ ∀ r ∈ p.2.rows, r.length = p.2.cols.length) :
    BaseSteadyStateRaw.df_kernel collated =
      Except.ok (collated.map (fun p =>
        (p.1, { cols := p.2.cols, rows := [p.2.rows.getLastD []] }))) := by
  induction collated with
  | nil => rfl
  | cons hd tl ih =>
    obtain ⟨exp, df⟩ := hd
    obtain ⟨hne, hwf⟩ := h (exp, df) (List.mem_cons_self _ _)
    have htl := ih (fun p hp => h p (List.mem_cons_of_mem _ hp))
    rw [BaseSteadyStateRaw.df_kernel, df_kernel_one_ok df hne hwf, htl]
    rfl

/-- Witness for C5: the 3-row, 2-column frame with columns A = [1,2,3] and
B = [10,20,30] reduces to the single row A = 3, B = 30. -/
theorem df_kernel_last_row_witness :
    BaseSteadyStateRaw.df_kernel
        [("exp0", DataFrame.mk ["A", "B"] [[1, 10], [2, 20], [3, 30]])] =
      Except.ok [("exp0", DataFrame.mk ["A", "B"] [[3, 30]])] := by
  have h := df_kernel_last_row
      [("exp0", DataFrame.mk ["A", "B"] [[1, 10], [2, 20], [3, 30]])]
      (by decide)
  simpa using h

/-- The kernel body fails only with the fixed pandas index error message. -/
theorem df_kernel_one_error_msg (df : DataFrame) (e : String)
    (h : df_kernel_one df = Except.error e) : e = indexErrMsg := by
  rw [df_kernel_one] at h
  by_cases hc : df.cols.isEmpty
  · rw [if_pos hc] at h
    exact absurd h (by simp)
  · rw [if_neg hc] at h
    cases hr : df.rows.getLast? with
    | none => rw [hr] at h; exact (Except.error.injEq _ _).mp h.symm
    | some a => rw [hr] at h; exact absurd h (by simp)

/-- C6 amended: reducing a mapping that contains a zero-row frame (with at
least one column) aborts the kernel with the fixed pandas IndexError message:
an error is raised instead of a silently produced NaN row, but the message is
a constant that does not identify the offending experiment. -/
theorem df_kernel_empty_frame_errors (collated : List (String × DataFrame))
    (exp : String) (df : DataFrame) (hmem : (exp, df) ∈ collated)
    (hrows : df.rows = []) (hcols : df.cols ≠ []) :
    BaseSteadyStateRaw.df_kernel collated = Except.error indexErrMsg := by
  induction collated with
  | nil => exact absurd hmem (List.not_mem_nil _)
  | cons hd tl ih =>
    obtain ⟨e0, df0⟩ := hd
    cases hk : df_kernel_one df0 with
    | error e =>
      rw [BaseSteadyStateRaw.df_kernel, hk, df_kernel_one_error_msg df0 e hk]
    | ok out =>
      have hmemtl : (exp, df) ∈ tl := by
        rcases List.mem_cons.mp hmem with heq | htl
        · exfalso
          injection heq with he0 hdf0
          subst hdf0
          have herr : df_kernel_one df = Except.error indexErrMsg := by
            rw [df_kernel_one, if_neg (by simpa using hcols), hrows]
            rfl
          rw [herr] at hk
          exact Except.noConfusion hk
        · exact htl
      rw [BaseSteadyStateRaw.df_kernel, hk, ih hmemtl]

/-- Witness for the amended C6: a mapping whose second experiment has a
zero-row frame makes the kernel fail with the index error. -/
theorem df_kernel_empty_frame_errors_witness :
    BaseSteadyStateRaw.df_kernel
        [("e1", DataFrame.mk ["A"] [[1]]), ("e2", DataFrame.mk ["A"] [])] =
      Except.error indexErrMsg :=
  df_kernel_empty_frame_errors
    [("e1", DataFrame.mk ["A"] [[1]]), ("e2", DataFrame.mk ["A"] [])]
    "e2" (DataFrame.mk ["A"] []) (by decide) rfl (by decide)

/-- C6 counterexample: at a singleton mapping with a zero-row frame for
experiment "exp0" the kernel raises the bare index error, whose message does
not contain the experiment name — so the error does not identify the offending
experiment, contrary to the claim. -/
theorem df_kernel_empty_frame_cex :
    BaseSteadyStateRaw.df_kernel [("exp0", DataFrame.mk ["A"] [])] =
      Except.error indexErrMsg ∧
    strContains indexErrMsg "exp0" = false := by
  decide

/-- C9: category matching is substring containment with a fixed check order:
any criteria string containing "entities" parses to category entities and name
entities_oracle (regardless of where or whether "tasking" occurs), and the
parser returns category tasking only when "entities" is absent and "tasking"
present. -/
theorem parser_entities_wins (s : String) :
    (strContains s "entities" = true →
      Parser.call s =
        { oracle_name := "entities_oracle", oracle_type := "entities"
          population := parsePopulation s }) ∧
    ((Parser.call s).oracle_type = "tasking" →
      strContains s "entities" = false ∧ strContains s "tasking" = true) := by
  constructor
  · intro h
    rw [Parser.call, if_pos h]
  · intro h
    by_cases h1 : strContains s "entities"
    · rw [Parser.call, if_pos h1] at h
      exact absurd (show ("entities" : String) = "tasking" from h) (by decide)
    · by_cases h2 : strContains s "tasking"
      · exact ⟨by simpa using h1, h2⟩
      · rw [Parser.call, if_neg h1, if_neg h2] at h
        exact absurd (show ("" : String) = "tasking" from h) (by decide)

/-- Witness for C9: "tasking.entities" contains both keywords with "tasking"
first, yet parses to entities; "oracle.tasking" parses to tasking only because
"entities" is absent. -/
theorem parser_entities_wins_witness :
    Parser.call "tasking.entities" =
      { oracle_name := "entities_oracle", oracle_type := "entities"
        population := none } ∧
    (strContains "oracle.tasking" "entities" = false ∧
      strContains "oracle.tasking" "tasking" = true) := by
  constructor
  · have h := (parser_entities_wins "tasking.entities").1 (by decide)
    exact h.trans (by decide)
  · exact (parser_entities_wins "oracle.tasking").2 (by decide)

/-- A successful regex search found its match at the leftmost matching start
position: no earlier position matches. -/
theorem searchZ_leftmost (l : List Char) (ds : List Char)
    (h : searchZ l = some ds) :
    ∃ i, matchZ (l.drop i) = some ds ∧ ∀ j, j < i → matchZ (l.drop j) = none := by
  induction l with
  | nil => exact absurd h (by rw [searchZ]; exact Option.noConfusion)
  | cons c rest ih =>
    rw [searchZ] at h
    cases hm : matchZ (c :: rest) with
    | some ds2 =>
      rw [hm] at h
      refine ⟨0, ?_, ?_⟩
      · rw [List.drop_zero, hm]
        exact h
      · intro j hj
        exact absurd hj (Nat.not_lt_zero j)
    | none =>
      rw [hm] at h
      obtain ⟨i, hi, hlt⟩ := ih h
      refine ⟨i + 1, hi, ?_⟩
      intro j hj
      cases j with
      | zero => rw [List.drop_zero]; exact hm
      | succ k => exact hlt k (Nat.lt_of_succ_lt_succ hj)

/-- The population field of the parse result is always the independent
population scan, whatever category branch is taken. -/
theorem Parser.call_population (s : String) :
    (Parser.call s).population = parsePopulation s := by
  by_cases h1 : strContains s "entities"
  · rw [Parser.call, if_pos h1]
  · by_cases h2 : strContains s "tasking"
    · rw [Parser.call, if_neg h1, if_pos h2]
    · rw [Parser.call, if_neg h1, if_neg h2]

/-- C10: when the parser stores a population, it is the integer parsed from
the digits of the leftmost `.Z<digits>` occurrence (no earlier position
matches the pattern), and it is a non-negative integer. -/
theorem parser_population_leftmost (s : String) (n : Nat)
    (h : (Parser.call s).population = some n) :
    (∃ i ds, matchZ (s.toList.drop i) = some ds ∧ n = digitsToNat ds ∧
      ∀ j, j < i → matchZ (s.toList.drop j) = none) ∧ 0 ≤ (n : Int) := by
  rw [Parser.call_population] at h
  rw [parsePopulation] at h
  cases hz : searchZ s.toList with
  | none => rw [hz] at h; exact Option.noConfusion h
  | some ds =>
    rw [hz] at h
    have hn : n = digitsToNat ds := (Option.some.injEq _ _).mp h.symm
    obtain ⟨i, hi, hlt⟩ := searchZ_leftmost s.toList ds hz
    exact ⟨⟨i, ds, hi, hn, hlt⟩, Int.ofNat_nonneg n⟩

/-- Witness for C10 at "oracle.entities.Z10.Z999", which contains two
occurrences of the population pattern: the leftmost one (digits 10) is stored. -/
theorem parser_population_leftmost_witness :
    (Parser.call "oracle.entities.Z10.Z999").population = some 10 ∧
    ((∃ i ds,
        matchZ (("oracle.entities.Z10.Z999" : String).toList.drop i) = some ds ∧
        10 = digitsToNat ds ∧
        ∀ j, j < i →
          matchZ (("oracle.entities.Z10.Z999" : String).toList.drop j) = none) ∧
      0 ≤ ((10 : Nat) : Int)) :=
  ⟨by decide, parser_population_leftmost "oracle.entities.Z10.Z999" 10 (by decide)⟩
